import Mathlib

/-!
Verification of `src/backend/scripts/startMatchingServices.py`, a sequential
service launcher. The script is shallowly embedded: OS interactions (TCP
probes, filesystem queries, `chdir`, `open`, `Popen`) are mediated by an
explicit environment oracle `Env`, and the mutable process state (current
working directory, spawned children, opened log files) is threaded as an
explicit `OSState`. Python exceptions that escape a handler are modelled by
`Except.error`; exceptions caught by the `try/except` block inside
`start_service` are folded into the `spawnFailure` outcome, exactly as the
handler at lines 83-85 does. Time advances by one unit per `time.sleep(1)`.
-/

namespace SMS

/-- A service descriptor, as in the `SERVICES` list of the script. -/
structure Service where
  name : String
  port : Nat
  path : String
deriving Repr, DecidableEq

/-- A file opened via `open(fileName, mode)`; `dir` is the working directory
at the moment of the call (relative paths resolve there). -/
structure LogFile where
  dir : String
  fileName : String
  mode : String
deriving Repr, DecidableEq

/-- A child process created via `subprocess.Popen`. -/
structure SpawnedProc where
  argv : List String
  cwd : String
  newSession : Bool
  stdout : LogFile
  stderr : LogFile
  pid : Nat
deriving Repr, DecidableEq

/-- The launcher process's mutable OS-visible state: its process-wide
working directory, the children it has spawned, the files it has opened. -/
structure OSState where
  cwd : String
  spawned : List SpawnedProc
  opened : List LogFile
deriving Repr, DecidableEq

/-- The world oracle. `connectEx t host port` is the errno returned by
`socket.connect_ex` at time `t` (0 means the connection succeeded);
`resolve` is IPv4 (`AF_INET`) name resolution; `appResponse t port` is
whatever bytes the listening application would send after an accepted
connection (recorded so that independence from protocol responses is
expressible); `openErr dir file` / `popenErr argv cwd` give the exception
message when `open` / `Popen` raise, `none` when they succeed; `pid` is the
OS-assigned pid of a successful `Popen`; `executable` is `sys.executable`. -/
structure Env where
  resolve : String → String
  connectEx : Nat → String → Nat → Int
  appResponse : Nat → Nat → List String
  pathExists : String → Bool
  isDir : String → Bool
  executable : String
  openErr : String → String → Option String
  popenErr : List String → String → Option String
  pid : List String → String → Nat

/-- Lines 32-37: `is_port_open(port)` builds an `AF_INET` stream socket,
calls `connect_ex(('localhost', port))`, closes the socket and returns
whether the result is 0. -/
def is_port_open (env : Env) (t : Nat) (port : Nat) : Bool :=
  env.connectEx t (env.resolve "localhost") port == 0

/-- `os.chdir(path)`: succeeds (updating the process-wide cwd) when `path`
is a directory, raises (`FileNotFoundError` / `NotADirectoryError`)
otherwise. -/
def chdir (env : Env) (s : OSState) (path : String) : Except String OSState :=
  if env.isDir path then .ok { s with cwd := path }
  else .error ("chdir failed: " ++ path)

/-- The per-descriptor outcome (spec section 3, `LaunchResult`). The pid of
the child is recorded in `startedOk`, the caught exception message in
`spawnFailure`. -/
inductive Outcome where
  | alreadyRunning
  | missingPath
  | startedOk (pid : Nat)
  | slowStart
  | spawnFailure (msg : String)
deriving Repr, DecidableEq

/-- The boolean `start_service` actually returns: `True` at lines 50 and 78,
`False` at lines 55, 81 and 85. -/
def Outcome.toBool : Outcome → Bool
  | .alreadyRunning => true
  | .startedOk _ => true
  | .missingPath => false
  | .slowStart => false
  | .spawnFailure _ => false

/-- Lines 72-78: `for i in range(10): time.sleep(1); if is_port_open(port):
return True`. Returns the absolute time of the first successful probe
(probes happen at times `t+1, ..., t+fuel`), or `none` when the budget is
exhausted. -/
def waitForStart (env : Env) (port : Nat) (t : Nat) : Nat → Option Nat
  | 0 => none
  | fuel + 1 =>
    if is_port_open env (t + 1) port then some (t + 1)
    else waitForStart env port (t + 1) fuel

/-- The `argv` list passed to `subprocess.Popen` at line 65. -/
def uvicornArgv (env : Env) (svc : Service) : List String :=
  [env.executable, "-m", "uvicorn", "app.main:app", "--reload", "--port", toString svc.port]

/-- Lines 61-85: the body of the `try` block together with its
`except Exception` handler. Runs with the working directory already set to
the service's path. An exception from `open` or `Popen` is caught and
becomes `spawnFailure`; otherwise the log file is opened (mode "w"), the
child is spawned with `start_new_session=True` and stdout/stderr on the log
file, and the readiness loop runs. -/
def tryStart (env : Env) (svc : Service) (t : Nat) (s : OSState) :
    Outcome × Nat × OSState :=
  match env.openErr s.cwd (svc.name ++ ".log") with
  | some msg => (.spawnFailure msg, t, s)
  | none =>
    let log : LogFile := ⟨s.cwd, svc.name ++ ".log", "w"⟩
    let s1 : OSState := { s with opened := s.opened ++ [log] }
    match env.popenErr (uvicornArgv env svc) s1.cwd with
    | some msg => (.spawnFailure msg, t, s1)
    | none =>
      let proc : SpawnedProc :=
        ⟨uvicornArgv env svc, s1.cwd, true, log, log, env.pid (uvicornArgv env svc) s1.cwd⟩
      let s2 : OSState := { s1 with spawned := s1.spawned ++ [proc] }
      match waitForStart env svc.port t 10 with
      | some t' => (.startedOk proc.pid, t', s2)
      | none => (.slowStart, t + 10, s2)

/-- Lines 39-87: `start_service(service)`. Probe the port (line 48); if open,
return already-running. Check the path exists (line 53); if not, return
missing-path. Save the cwd and `os.chdir(path)` (lines 58-59) - note this
call sits outside the `try`, so an exception here propagates to the caller.
Run the try block, then the `finally` restores the original directory
(line 87); an exception from that restore also propagates. -/
def start_service (env : Env) (svc : Service) (t : Nat) (s : OSState) :
    Except String (Outcome × Nat × OSState) :=
  if is_port_open env t svc.port then .ok (.alreadyRunning, t, s)
  else if env.pathExists svc.path = false then .ok (.missingPath, t, s)
  else
    match chdir env s svc.path with
    | .error e => .error e
    | .ok sIn =>
      match tryStart env svc t sIn with
      | (r, t', s') =>
        match chdir env s' s.cwd with
        | .error e => .error e
        | .ok sOut => .ok (r, t', sOut)

/-- Spec section 4.1, `launchAll`: the loop of `main` (lines 95-97), with the
per-descriptor outcomes collected as a trace. An exception escaping
`start_service` aborts the whole loop, since `main` has no handler. -/
def launchAll (env : Env) : List Service → Nat → OSState →
    Except String (List Outcome × Nat × OSState)
  | [], t, s => .ok ([], t, s)
  | svc :: rest, t, s =>
    match start_service env svc t s with
    | .error e => .error e
    | .ok (o, t', s') =>
      match launchAll env rest t' s' with
      | .error e => .error e
      | .ok (os, t'', s'') => .ok (o :: os, t'', s'')

/-- The final summary `main` prints at lines 99-103: the accumulated
`success_count` out of `len(SERVICES)`. -/
structure Summary where
  successCount : Nat
  total : Nat
deriving Repr, DecidableEq

/-- Lines 93-97 of `main`: `success_count` starts at 0 and is incremented
exactly when `start_service` returns `True`. -/
def mainLoop (env : Env) : List Service → Nat → OSState → Nat →
    Except String (Nat × Nat × OSState)
  | [], t, s, acc => .ok (acc, t, s)
  | svc :: rest, t, s, acc =>
    match start_service env svc t s with
    | .error e => .error e
    | .ok (o, t', s') =>
      mainLoop env rest t' s' (if o.toBool then acc + 1 else acc)

/-- Lines 89-110: `main` runs the loop over the descriptors and, when no
exception escaped, prints the summary. An `Except.error` result means the
run aborted with no summary printed. -/
def main (env : Env) (svcs : List Service) (t : Nat) (s : OSState) :
    Except String (Summary × OSState) :=
  match mainLoop env svcs t s 0 with
  | .error e => .error e
  | .ok (c, _, s') => .ok ({ successCount := c, total := svcs.length }, s')

/-- Lines 14-30: the hard-coded `SERVICES` list. -/
def SERVICES : List Service :=
  [⟨"data-processor", 8001,
    "/Users/jingzhougaryxue/CascadeProjects/SharedTableMatchingAlgorithm/services/data-processor"⟩,
   ⟨"people-matcher", 8002,
    "/Users/jingzhougaryxue/CascadeProjects/SharedTableMatchingAlgorithm/services/people-matcher"⟩,
   ⟨"restaurant-matcher", 8003,
    "/Users/jingzhougaryxue/CascadeProjects/SharedTableMatchingAlgorithm/services/restaurant-matcher"⟩]
/-- The log file `start_service` opens at line 63, located in the service's
directory because the `open` happens after the `chdir` of line 59. -/
def logOf (svc : Service) : LogFile :=
  ⟨svc.path, svc.name ++ ".log", "w"⟩

/-- The child process `start_service` spawns at lines 64-69. -/
def procOf (env : Env) (svc : Service) : SpawnedProc :=
  ⟨uvicornArgv env svc, svc.path, true, logOf svc, logOf svc,
   env.pid (uvicornArgv env svc) svc.path⟩

/-- The OS state after a successful spawn and the restoring `chdir`. -/
def spawnedState (env : Env) (svc : Service) (s : OSState) : OSState :=
  ⟨s.cwd, s.spawned ++ [procOf env svc], s.opened ++ [logOf svc]⟩

theorem chdir_ok {env : Env} {s s' : OSState} {p : String}
    (h : chdir env s p = .ok s') :
    s' = { s with cwd := p } := by
  unfold chdir at h
  split at h
  · exact (Except.ok.injEq _ _).mp h.symm |>.symm ▸ rfl
  · cases h

theorem chdir_isDir {env : Env} {s s' : OSState} {p : String}
    (h : chdir env s p = .ok s') : env.isDir p = true := by
  unfold chdir at h
  split at h
  · assumption
  · cases h

theorem chdir_of_isDir {env : Env} (s : OSState) {p : String}
    (h : env.isDir p = true) : chdir env s p = .ok { s with cwd := p } := by
  simp [chdir, h]

theorem waitForStart_some_bounds {env : Env} {port t t' fuel : Nat}
    (h : waitForStart env port t fuel = some t') :
    t < t' ∧ t' ≤ t + fuel := by
  induction fuel generalizing t with
  | zero => simp [waitForStart] at h
  | succ n ih =>
    unfold waitForStart at h
    split at h
    · cases h; omega
    · have := ih h; omega

theorem waitForStart_some_open {env : Env} {port t t' fuel : Nat}
    (h : waitForStart env port t fuel = some t') :
    is_port_open env t' port = true := by
  induction fuel generalizing t with
  | zero => simp [waitForStart] at h
  | succ n ih =>
    unfold waitForStart at h
    split at h
    · cases h; assumption
    · exact ih h

theorem waitForStart_some_first {env : Env} {port t t' fuel : Nat}
    (h : waitForStart env port t fuel = some t') :
    ∀ j, t < j → j < t' → is_port_open env j port = false := by
  induction fuel generalizing t with
  | zero => simp [waitForStart] at h
  | succ n ih =>
    unfold waitForStart at h
    split at h
    · cases h
      intro j hj hj'
      omega
    · intro j hj hj'
      rcases Nat.eq_or_lt_of_le hj with he | hlt
      · simpa [← he] using ‹¬ is_port_open env (t + 1) port = true›
      · exact ih h j hlt hj'

theorem waitForStart_none {env : Env} {port t fuel : Nat}
    (h : waitForStart env port t fuel = none) :
    ∀ j, t < j → j ≤ t + fuel → is_port_open env j port = false := by
  induction fuel generalizing t with
  | zero => omega
  | succ n ih =>
    unfold waitForStart at h
    split at h
    · cases h
    · intro j hj hj'
      rcases Nat.eq_or_lt_of_le hj with he | hlt
      · simpa [← he] using ‹¬ is_port_open env (t + 1) port = true›
      · exact ih h j hlt (by omega)
theorem start_service_already {env : Env} {svc : Service} {t : Nat} (s : OSState)
    (h : is_port_open env t svc.port = true) :
    start_service env svc t s = .ok (.alreadyRunning, t, s) := by
  simp [start_service, h]

theorem start_service_missing {env : Env} {svc : Service} {t : Nat} (s : OSState)
    (h : is_port_open env t svc.port = false)
    (hp : env.pathExists svc.path = false) :
    start_service env svc t s = .ok (.missingPath, t, s) := by
  simp [start_service, h, hp]

theorem start_service_chdir_raises {env : Env} {svc : Service} {t : Nat} (s : OSState)
    (h : is_port_open env t svc.port = false)
    (hp : env.pathExists svc.path = true)
    (hd : env.isDir svc.path = false) :
    start_service env svc t s = .error ("chdir failed: " ++ svc.path) := by
  simp [start_service, h, hp, chdir, hd]

theorem start_service_spawn_some {env : Env} {svc : Service} {t t' : Nat} (s : OSState)
    (h : is_port_open env t svc.port = false)
    (hp : env.pathExists svc.path = true)
    (hd : env.isDir svc.path = true)
    (hcwd : env.isDir s.cwd = true)
    (ho : env.openErr svc.path (svc.name ++ ".log") = none)
    (hs : env.popenErr (uvicornArgv env svc) svc.path = none)
    (hw : waitForStart env svc.port t 10 = some t') :
    start_service env svc t s =
      .ok (.startedOk (procOf env svc).pid, t', spawnedState env svc s) := by
  simp [start_service, h, hp, chdir, hd, tryStart, ho, hs, hw, hcwd,
        spawnedState, procOf, logOf]

theorem start_service_spawn_none {env : Env} {svc : Service} {t : Nat} (s : OSState)
    (h : is_port_open env t svc.port = false)
    (hp : env.pathExists svc.path = true)
    (hd : env.isDir svc.path = true)
    (hcwd : env.isDir s.cwd = true)
    (ho : env.openErr svc.path (svc.name ++ ".log") = none)
    (hs : env.popenErr (uvicornArgv env svc) svc.path = none)
    (hw : waitForStart env svc.port t 10 = none) :
    start_service env svc t s =
      .ok (.slowStart, t + 10, spawnedState env svc s) := by
  simp [start_service, h, hp, chdir, hd, tryStart, ho, hs, hw, hcwd,
        spawnedState, procOf, logOf]

theorem start_service_open_raises {env : Env} {svc : Service} {t : Nat} (s : OSState)
    (h : is_port_open env t svc.port = false)
    (hp : env.pathExists svc.path = true)
    (hd : env.isDir svc.path = true)
    (hcwd : env.isDir s.cwd = true)
    {msg : String}
    (ho : env.openErr svc.path (svc.name ++ ".log") = some msg) :
    start_service env svc t s = .ok (.spawnFailure msg, t, s) := by
  simp [start_service, h, hp, chdir, hd, tryStart, ho, hcwd]

theorem start_service_popen_raises {env : Env} {svc : Service} {t : Nat} (s : OSState)
    (h : is_port_open env t svc.port = false)
    (hp : env.pathExists svc.path = true)
    (hd : env.isDir svc.path = true)
    (hcwd : env.isDir s.cwd = true)
    (ho : env.openErr svc.path (svc.name ++ ".log") = none)
    {msg : String}
    (hs : env.popenErr (uvicornArgv env svc) svc.path = some msg) :
    start_service env svc t s =
      .ok (.spawnFailure msg, t, { s with opened := s.opened ++ [logOf svc] }) := by
  simp [start_service, h, hp, chdir, hd, tryStart, ho, hs, hcwd, logOf]

theorem start_service_ok_cwd {env : Env} {svc : Service} {t t' : Nat}
    {s s' : OSState} {o : Outcome}
    (h : start_service env svc t s = .ok (o, t', s')) :
    s'.cwd = s.cwd := by
  unfold start_service at h
  split at h
  · cases h; rfl
  · split at h
    · cases h; rfl
    · rcases hc : chdir env s svc.path with e | sIn <;> rw [hc] at h
      · cases h
      · dsimp only at h
        rcases ht : tryStart env svc t sIn with ⟨r, tr, sr⟩
        rw [ht] at h
        rcases hc2 : chdir env sr s.cwd with e | sOut <;> rw [hc2] at h
        · cases h
        · cases h
          rw [chdir_ok hc2]
theorem mainLoop_of_launchAll {env : Env} {svcs : List Service} {t t' : Nat}
    {s s' : OSState} {os : List Outcome}
    (h : launchAll env svcs t s = .ok (os, t', s')) :
    ∀ acc, mainLoop env svcs t s acc =
      .ok (acc + (os.filter Outcome.toBool).length, t', s') := by
  induction svcs generalizing t s os with
  | nil =>
    unfold launchAll at h
    cases h
    intro acc
    simp [mainLoop]
  | cons svc rest ih =>
    intro acc
    unfold launchAll at h
    rcases hss : start_service env svc t s with e | ⟨o, t1, s1⟩ <;> rw [hss] at h
    · cases h
    · dsimp only at h
      rcases hla : launchAll env rest t1 s1 with e | ⟨os1, t2, s2⟩ <;> rw [hla] at h
      · cases h
      · cases h
        unfold mainLoop
        rw [hss]
        dsimp only
        rw [ih hla]
        rcases hob : o.toBool with _ | _
        · simp [List.filter_cons, hob]
        · simp [List.filter_cons, hob]
          omega

theorem start_service_total {env : Env} {svc : Service} {t : Nat} {s : OSState}
    (hcwd : env.isDir s.cwd = true)
    (hdir : env.pathExists svc.path = true → env.isDir svc.path = true) :
    ∃ o t' s', start_service env svc t s = .ok (o, t', s') ∧ s'.cwd = s.cwd := by
  rcases hio : is_port_open env t svc.port with _ | _
  · rcases hpe : env.pathExists svc.path with _ | _
    · exact ⟨_, _, _, start_service_missing s hio hpe, rfl⟩
    · have hd := hdir hpe
      rcases ho : env.openErr svc.path (svc.name ++ ".log") with _ | msg
      · rcases hs : env.popenErr (uvicornArgv env svc) svc.path with _ | msg
        · rcases hw : waitForStart env svc.port t 10 with _ | t'
          · exact ⟨_, _, _, start_service_spawn_none s hio hpe hd hcwd ho hs hw, rfl⟩
          · exact ⟨_, _, _, start_service_spawn_some s hio hpe hd hcwd ho hs hw, rfl⟩
        · exact ⟨_, _, _, start_service_popen_raises s hio hpe hd hcwd ho hs, rfl⟩
      · exact ⟨_, _, _, start_service_open_raises s hio hpe hd hcwd ho, rfl⟩
  · exact ⟨_, _, _, start_service_already s hio, rfl⟩

theorem launchAll_total {env : Env} {svcs : List Service} {t : Nat} {s : OSState}
    (hcwd : env.isDir s.cwd = true)
    (hdir : ∀ svc ∈ svcs, env.pathExists svc.path = true → env.isDir svc.path = true) :
    ∃ os t' s', launchAll env svcs t s = .ok (os, t', s') ∧
      os.length = svcs.length ∧ s'.cwd = s.cwd := by
  induction svcs generalizing t s with
  | nil => exact ⟨[], t, s, rfl, rfl, rfl⟩
  | cons svc rest ih =>
    obtain ⟨o, t1, s1, h1, hc1⟩ :=
      start_service_total hcwd (hdir svc (List.mem_cons_self _ _))
    obtain ⟨os, t2, s2, h2, hlen, hc2⟩ :=
      ih (s := s1) (t := t1) (hc1 ▸ hcwd)
        (fun v hv => hdir v (List.mem_cons_of_mem _ hv))
    refine ⟨o :: os, t2, s2, ?_, by simp [hlen], by rw [hc2, hc1]⟩
    unfold launchAll
    rw [h1]
    dsimp only
    rw [h2]
/-- Concrete launcher state used to evaluate the theorems: the launcher was
started from the directory `/home`. -/
def stW : OSState := ⟨"/home", [], []⟩

/-- Concrete descriptors used in evaluations. -/
def svcA : Service := ⟨"data-processor", 8001, "/srv/app"⟩

def svcB : Service := ⟨"people-matcher", 8002, "/srv/app"⟩

def svcGhost : Service := ⟨"svc", 9999, "/nonexistent"⟩

def svcBad : Service := ⟨"svc", 9999, "/srv/notadir"⟩

/-- A world where every port accepts connections and no path exists. -/
def envUp : Env :=
  ⟨fun _ => "127.0.0.1", fun _ _ _ => 0, fun _ _ => [], fun _ => false,
   fun p => p == "/home", "python3", fun _ _ => none, fun _ _ => none, fun _ _ => 41⟩

/-- A world where no port ever accepts connections; `/srv/app` exists and is
a directory, as is `/home`. -/
def envDown : Env :=
  ⟨fun _ => "127.0.0.1", fun _ _ _ => 1, fun _ _ => [], fun p => p == "/srv/app",
   fun p => p == "/srv/app" || p == "/home", "python3",
   fun _ _ => none, fun _ _ => none, fun _ _ => 7⟩

/-- Like `envDown`, except every port starts accepting connections at time 3
(so the initial probe at time 0 fails and the readiness poll succeeds at its
third attempt). -/
def envSlow3 : Env :=
  ⟨fun _ => "127.0.0.1", fun t _ _ => if 3 ≤ t then 0 else 1, fun _ _ => [],
   fun p => p == "/srv/app", fun p => p == "/srv/app" || p == "/home", "python3",
   fun _ _ => none, fun _ _ => none, fun _ _ => 7⟩

/-- A world where every path exists but only `/home` is a directory: a
descriptor's path is a regular file, so `os.chdir` raises. -/
def envBad : Env :=
  ⟨fun _ => "127.0.0.1", fun _ _ _ => 1, fun _ _ => [], fun _ => true,
   fun p => p == "/home", "python3", fun _ _ => none, fun _ _ => none, fun _ _ => 7⟩

/-- A world where ports are closed, `/srv/app` is a real directory, but
`subprocess.Popen` raises (for example, the interpreter is missing). -/
def envPF : Env :=
  ⟨fun _ => "127.0.0.1", fun _ _ _ => 1, fun _ _ => [], fun p => p == "/srv/app",
   fun p => p == "/srv/app" || p == "/home", "python3",
   fun _ _ => none, fun _ _ => some "boom", fun _ _ => 7⟩
/-- C2: for descriptors whose port already accepts a TCP connection at probe
time, `start_service` spawns no process, changes no working directory, opens
no log file and reports already-running; hence a run of the launcher over
descriptors that are all up returns every outcome as already-running and
leaves the OS state completely unchanged (no duplicate processes). No
hypothesis on the path is needed: the liveness probe precedes path
validation, so this holds even when the path does not exist. -/
theorem launchOne_already_running_idempotent (env : Env) (svcs : List Service)
    (t : Nat) (s : OSState)
    (h : ∀ svc ∈ svcs, is_port_open env t svc.port = true) :
    launchAll env svcs t s = .ok (svcs.map fun _ => Outcome.alreadyRunning, t, s) := by
  induction svcs with
  | nil => rfl
  | cons svc rest ih =>
    unfold launchAll
    rw [start_service_already s (h svc (List.mem_cons_self _ _))]
    dsimp only
    rw [ih (fun v hv => h v (List.mem_cons_of_mem _ hv))]
    rfl

/-- Witness for C2: both ports are up in `envUp`, `svcGhost`'s path does not
even exist, and the launcher returns already-running twice with the state
(cwd, spawned processes, opened files) exactly as before. -/
theorem launchOne_already_running_idempotent_witness :
    launchAll envUp [svcGhost, svcA] 0 stW =
      .ok ([.alreadyRunning, .alreadyRunning], 0, stW) :=
  launchOne_already_running_idempotent envUp [svcGhost, svcA] 0 stW (by decide)

/-- C3: whatever outcome `start_service` returns (already-running,
missing-path, started-ok, slow-start or spawn-failure), the process-wide
working directory after the call equals its value before the call. -/
theorem start_service_preserves_cwd (env : Env) (svc : Service) (t : Nat)
    (s : OSState) :
    ∀ o t' s', start_service env svc t s = .ok (o, t', s') → s'.cwd = s.cwd :=
  fun _ _ _ h => start_service_ok_cwd h

/-- Witness for C3: a slow-start run that did chdir into `/srv/app` ends with
the working directory restored to `/home`. -/
theorem start_service_preserves_cwd_witness :
    (spawnedState envDown svcA stW).cwd = stW.cwd :=
  start_service_preserves_cwd envDown svcA 0 stW .slowStart 10
    (spawnedState envDown svcA stW) (by rfl)

/-- C4: once a descriptor reaches the readiness wait, the wait makes at most
10 probes (`t' ≤ t + 10`), terminates either way, the first successful probe
yields started-ok carrying the child's pid, and exhausting the 10 attempts
yields slow-start. -/
theorem readiness_wait_bounded (env : Env) (svc : Service) (t : Nat) (s : OSState)
    (h : is_port_open env t svc.port = false)
    (hp : env.pathExists svc.path = true)
    (hd : env.isDir svc.path = true)
    (hcwd : env.isDir s.cwd = true)
    (ho : env.openErr svc.path (svc.name ++ ".log") = none)
    (hs : env.popenErr (uvicornArgv env svc) svc.path = none) :
    (∀ t', waitForStart env svc.port t 10 = some t' →
      t < t' ∧ t' ≤ t + 10 ∧ is_port_open env t' svc.port = true ∧
      (∀ j, t < j → j < t' → is_port_open env j svc.port = false) ∧
      start_service env svc t s =
        .ok (.startedOk (procOf env svc).pid, t', spawnedState env svc s)) ∧
    (waitForStart env svc.port t 10 = none →
      (∀ j, t < j → j ≤ t + 10 → is_port_open env j svc.port = false) ∧
      start_service env svc t s =
        .ok (.slowStart, t + 10, spawnedState env svc s)) := by
  constructor
  · intro t' hw
    obtain ⟨h1, h2⟩ := waitForStart_some_bounds hw
    exact ⟨h1, h2, waitForStart_some_open hw, waitForStart_some_first hw,
      start_service_spawn_some s h hp hd hcwd ho hs hw⟩
  · intro hw
    exact ⟨waitForStart_none hw, start_service_spawn_none s h hp hd hcwd ho hs hw⟩

/-- Witness for C4: in `envSlow3` the port opens at the third probe, giving
started-ok with pid 7 after 3 time units; in `envDown` the port never opens
and the wait stops at exactly `0 + 10` with slow-start. -/
theorem readiness_wait_bounded_witness :
    (0 < 3 ∧ 3 ≤ 0 + 10 ∧ is_port_open envSlow3 3 svcA.port = true ∧
      (∀ j, 0 < j → j < 3 → is_port_open envSlow3 j svcA.port = false) ∧
      start_service envSlow3 svcA 0 stW =
        .ok (.startedOk (procOf envSlow3 svcA).pid, 3, spawnedState envSlow3 svcA stW)) ∧
    ((∀ j, 0 < j → j ≤ 0 + 10 → is_port_open envDown j svcA.port = false) ∧
      start_service envDown svcA 0 stW =
        .ok (.slowStart, 0 + 10, spawnedState envDown svcA stW)) :=
  ⟨(readiness_wait_bounded envSlow3 svcA 0 stW (by decide) (by decide) (by decide)
      (by decide) (by rfl) (by rfl)).1 3 (by rfl),
   (readiness_wait_bounded envDown svcA 0 stW (by decide) (by decide) (by decide)
      (by decide) (by rfl) (by rfl)).2 (by rfl)⟩

/-- C5: `is_port_open` is a plain TCP connect: when `localhost` resolves (as
an `AF_INET` lookup) to `127.0.0.1`, the probe reports the port up exactly
when `connect_ex` against `127.0.0.1:port` returns 0, and its verdict
depends on nothing but the connect result and the resolution - in
particular not on any protocol response the listener would send. -/
theorem is_port_open_plain_tcp_connect (env : Env) (t port : Nat)
    (h : env.resolve "localhost" = "127.0.0.1") :
    (is_port_open env t port = true ↔ env.connectEx t "127.0.0.1" port = 0) ∧
    (∀ env' : Env, env'.connectEx = env.connectEx → env'.resolve = env.resolve →
      is_port_open env' t port = is_port_open env t port) := by
  constructor
  · simp [is_port_open, h]
  · intro env' h1 h2
    simp [is_port_open, h1, h2]

/-- Witness for C5 at a concrete world with standard resolution. -/
theorem is_port_open_plain_tcp_connect_witness :
    envUp.resolve "localhost" = "127.0.0.1" ∧
    (is_port_open envUp 0 8001 = true ↔ envUp.connectEx 0 "127.0.0.1" 8001 = 0) :=
  ⟨rfl, (is_port_open_plain_tcp_connect envUp 0 8001 rfl).1⟩

/-- C6: for a descriptor whose port is closed and whose path does not exist,
`start_service` reports missing-path, spawns nothing and leaves the whole
state (working directory included) unchanged, and the loop simply prepends
that outcome and continues with the rest of the descriptors. -/
theorem missing_path_skips_and_continues (env : Env) (svc : Service) (t : Nat)
    (s : OSState)
    (h : is_port_open env t svc.port = false)
    (hp : env.pathExists svc.path = false) :
    start_service env svc t s = .ok (.missingPath, t, s) ∧
    (∀ rest os t' s', launchAll env rest t s = .ok (os, t', s') →
      launchAll env (svc :: rest) t s = .ok (.missingPath :: os, t', s')) := by
  refine ⟨start_service_missing s h hp, ?_⟩
  intro rest os t' s' hr
  unfold launchAll
  rw [start_service_missing s h hp]
  dsimp only
  rw [hr]

/-- Witness for C6, at the spec's own scenario
`{name: "svc", port: 9999, path: "/nonexistent"}`. -/
theorem missing_path_skips_and_continues_witness :
    start_service envDown svcGhost 0 stW = .ok (.missingPath, 0, stW) ∧
    launchAll envDown [svcGhost] 0 stW = .ok ([.missingPath], 0, stW) :=
  ⟨(missing_path_skips_and_continues envDown svcGhost 0 stW (by decide) (by decide)).1,
   (missing_path_skips_and_continues envDown svcGhost 0 stW (by decide) (by decide)).2
     [] [] 0 stW rfl⟩
/-- A world with one port open (8001) and a `Popen` that raises, so that one
run mixes already-running, spawn-failure and missing-path outcomes. -/
def envMix : Env :=
  ⟨fun _ => "127.0.0.1", fun _ _ p => if p == 8001 then 0 else 1, fun _ _ => [],
   fun p => p == "/srv/app", fun p => p == "/srv/app" || p == "/home", "python3",
   fun _ _ => none, fun _ _ => some "boom", fun _ _ => 7⟩

/-- C1, counterexample: the claim says no error raised while handling a
descriptor is fatal and a final summary is always printed, but the `chdir`
at line 59 sits outside the `try/finally`; in `envBad` the first
descriptor's path exists and is not a directory, the `chdir` raises, `main`
aborts with the exception, the second descriptor is never attempted and no
summary is produced. -/
theorem launchAll_error_tolerant_cex :
    start_service envBad svcBad 0 stW = .error ("chdir failed: " ++ "/srv/notadir") ∧
    main envBad [svcBad, svcA] 0 stW = .error ("chdir failed: " ++ "/srv/notadir") :=
  ⟨rfl, rfl⟩

/-- C1, amended: provided no descriptor's `chdir` can raise (every existing
descriptor path is a directory, and the launcher's own directory is one so
the restores succeed), every error is confined to the `try` block, `main`
attempts every descriptor - a spawn failure included - and returns the
final summary, with every descriptor reflected in it. -/
theorem launchAll_error_tolerant (env : Env) (svcs : List Service)
    (t : Nat) (s : OSState)
    (hcwd : env.isDir s.cwd = true)
    (hdir : ∀ svc ∈ svcs, env.pathExists svc.path = true → env.isDir svc.path = true) :
    ∃ os t' s', launchAll env svcs t s = .ok (os, t', s') ∧
      os.length = svcs.length ∧
      main env svcs t s =
        .ok (⟨(os.filter Outcome.toBool).length, svcs.length⟩, s') := by
  obtain ⟨os, t', s', h, hlen, _⟩ := launchAll_total hcwd hdir
  refine ⟨os, t', s', h, hlen, ?_⟩
  unfold main
  rw [mainLoop_of_launchAll h 0]
  simp

/-- Witness for amended C1: in `envPF` every `Popen` raises, yet both
descriptors are processed and the summary covers both. -/
theorem launchAll_error_tolerant_witness :
    ∃ os t' s', launchAll envPF [svcA, svcB] 0 stW = .ok (os, t', s') ∧
      os.length = 2 ∧
      main envPF [svcA, svcB] 0 stW =
        .ok (⟨(os.filter Outcome.toBool).length, 2⟩, s') :=
  launchAll_error_tolerant envPF [svcA, svcB] 0 stW (by decide) (by decide)

/-- C7: when the loop runs to completion with outcome trace `os`, the summary
`main` prints counts exactly the descriptors whose outcome is started-ok or
already-running, out of all descriptors; missing-path, slow-start and
spawn-failure are excluded from the count. -/
theorem summary_counts_successes (env : Env) (svcs : List Service)
    (t t' : Nat) (s s' : OSState) (os : List Outcome)
    (h : launchAll env svcs t s = .ok (os, t', s')) :
    main env svcs t s =
      .ok (⟨(os.filter fun o => match o with
              | .startedOk _ => true
              | .alreadyRunning => true
              | .missingPath => false
              | .slowStart => false
              | .spawnFailure _ => false).length, svcs.length⟩, s') := by
  have hpred : (fun o => match o with
      | Outcome.startedOk _ => true
      | Outcome.alreadyRunning => true
      | Outcome.missingPath => false
      | Outcome.slowStart => false
      | Outcome.spawnFailure _ => false) = Outcome.toBool := by
    funext o
    cases o <;> rfl
  rw [hpred]
  unfold main
  rw [mainLoop_of_launchAll h 0]
  simp

/-- Witness for C7: a run mixing already-running, spawn-failure and
missing-path counts 1 success out of 3. -/
theorem summary_counts_successes_witness :
    main envMix [svcA, svcB, svcGhost] 0 stW =
      .ok (⟨1, 3⟩, ⟨"/home", [], [logOf svcB]⟩) :=
  summary_counts_successes envMix [svcA, svcB, svcGhost] 0 0 stW
    ⟨"/home", [], [logOf svcB]⟩
    [.alreadyRunning, .spawnFailure "boom", .missingPath] (by rfl)

/-- C8: a descriptor that reaches the spawn step opens exactly one log file,
named `<service-name>.log`, located in the service's own directory, in mode
"w" (so it is truncated on each launcher run), and the spawned child has
both stdout and stderr attached to that file. -/
theorem log_file_per_service (env : Env) (svc : Service) (t : Nat) (s : OSState)
    (h : is_port_open env t svc.port = false)
    (hp : env.pathExists svc.path = true)
    (hd : env.isDir svc.path = true)
    (hcwd : env.isDir s.cwd = true)
    (ho : env.openErr svc.path (svc.name ++ ".log") = none)
    (hs : env.popenErr (uvicornArgv env svc) svc.path = none) :
    ∀ o t' s', start_service env svc t s = .ok (o, t', s') →
      s'.opened = s.opened ++ [⟨svc.path, svc.name ++ ".log", "w"⟩] ∧
      (procOf env svc).stdout = ⟨svc.path, svc.name ++ ".log", "w"⟩ ∧
      (procOf env svc).stderr = ⟨svc.path, svc.name ++ ".log", "w"⟩ ∧
      s'.spawned = s.spawned ++ [procOf env svc] := by
  intro o t' s' hss
  rcases hw : waitForStart env svc.port t 10 with _ | u
  · rw [start_service_spawn_none s h hp hd hcwd ho hs hw] at hss
    cases hss
    exact ⟨rfl, rfl, rfl, rfl⟩
  · rw [start_service_spawn_some s h hp hd hcwd ho hs hw] at hss
    cases hss
    exact ⟨rfl, rfl, rfl, rfl⟩

/-- Witness for C8: `data-processor` gets `/srv/app/data-processor.log`,
opened with mode "w" and wired to the child's stdout and stderr. -/
theorem log_file_per_service_witness :
    (spawnedState envDown svcA stW).opened =
      stW.opened ++ [⟨"/srv/app", "data-processor.log", "w"⟩] ∧
    (procOf envDown svcA).stdout = ⟨"/srv/app", "data-processor.log", "w"⟩ ∧
    (procOf envDown svcA).stderr = ⟨"/srv/app", "data-processor.log", "w"⟩ ∧
    (spawnedState envDown svcA stW).spawned = stW.spawned ++ [procOf envDown svcA] :=
  log_file_per_service envDown svcA 0 stW (by decide) (by decide) (by decide)
    (by decide) (by rfl) (by rfl) .slowStart 10 (spawnedState envDown svcA stW) (by rfl)

/-- C9: the child spawned for a descriptor runs
`<interpreter> -m uvicorn app.main:app --reload --port <port>` with the
service's own directory as working directory, in a new session (detached),
with stdout and stderr redirected to the per-service log file. -/
theorem spawn_command_detached (env : Env) (svc : Service) (t : Nat) (s : OSState)
    (h : is_port_open env t svc.port = false)
    (hp : env.pathExists svc.path = true)
    (hd : env.isDir svc.path = true)
    (hcwd : env.isDir s.cwd = true)
    (ho : env.openErr svc.path (svc.name ++ ".log") = none)
    (hs : env.popenErr (uvicornArgv env svc) svc.path = none) :
    ∀ o t' s', start_service env svc t s = .ok (o, t', s') →
      s'.spawned = s.spawned ++
        [⟨[env.executable, "-m", "uvicorn", "app.main:app", "--reload", "--port",
           toString svc.port],
          svc.path, true,
          ⟨svc.path, svc.name ++ ".log", "w"⟩, ⟨svc.path, svc.name ++ ".log", "w"⟩,
          env.pid (uvicornArgv env svc) svc.path⟩] := by
  intro o t' s' hss
  rcases hw : waitForStart env svc.port t 10 with _ | u
  · rw [start_service_spawn_none s h hp hd hcwd ho hs hw] at hss
    cases hss
    rfl
  · rw [start_service_spawn_some s h hp hd hcwd ho hs hw] at hss
    cases hss
    rfl

/-- Witness for C9: the concrete child record for `people-matcher` on port
8002, spawned from `/srv/app` in a new session. -/
theorem spawn_command_detached_witness :
    (spawnedState envDown svcB stW).spawned = stW.spawned ++
      [⟨["python3", "-m", "uvicorn", "app.main:app", "--reload", "--port", "8002"],
        "/srv/app", true,
        ⟨"/srv/app", "people-matcher.log", "w"⟩, ⟨"/srv/app", "people-matcher.log", "w"⟩, 7⟩] :=
  spawn_command_detached envDown svcB 0 stW (by decide) (by decide) (by decide)
    (by decide) (by rfl) (by rfl) .slowStart 10 (spawnedState envDown svcB stW) (by rfl)

/-- C10: a descriptor whose port is closed and whose path exists but is not a
directory passes the `path.exists()` check, and the `os.chdir` of line 59 -
which sits outside any handler - raises: `start_service` returns no result,
the remaining descriptors are never processed and `main` aborts without a
summary. -/
theorem nondir_path_aborts_run (env : Env) (svc : Service) (t : Nat) (s : OSState)
    (rest : List Service)
    (h : is_port_open env t svc.port = false)
    (hp : env.pathExists svc.path = true)
    (hd : env.isDir svc.path = false) :
    start_service env svc t s = .error ("chdir failed: " ++ svc.path) ∧
    launchAll env (svc :: rest) t s = .error ("chdir failed: " ++ svc.path) ∧
    main env (svc :: rest) t s = .error ("chdir failed: " ++ svc.path) := by
  have h1 := start_service_chdir_raises s h hp hd
  refine ⟨h1, ?_, ?_⟩ <;> simp [launchAll, main, mainLoop, h1]

/-- Witness for C10: `/srv/notadir` exists as a regular file; the whole run
on `[svcBad, svcA]` errors out, `svcA` unattempted. -/
theorem nondir_path_aborts_run_witness :
    start_service envBad svcBad 0 stW = .error ("chdir failed: " ++ "/srv/notadir") ∧
    launchAll envBad [svcBad, svcA] 0 stW = .error ("chdir failed: " ++ "/srv/notadir") ∧
    main envBad [svcBad, svcA] 0 stW = .error ("chdir failed: " ++ "/srv/notadir") :=
  nondir_path_aborts_run envBad svcBad 0 stW [svcA] (by decide) (by decide) (by decide)

end SMS
